import Mathlib

/-!
Shallow embedding of `src/bot.py` of BotBackbone/FileStoreForwarder: a
message-forwarding bot with a per-user dump-channel registry backed by a
document store, a dispatch/relay handler with one bounded retry on a
rate-limit signal, a configuration-reply flow, informational commands and
two liveness surfaces.  Handlers are modelled as pure functions from the
registry state, the inbound message and (for the relay) an environment
giving the outcome of each copy attempt, to the registry state after the
handler plus the observable effects (replies sent, copy attempts, sleeps,
and whether an exception escaped the handler uncaught).  On top of the
handler functions, `on_message` embeds pyrogram's group-0 dispatch: all
five `on_message` handlers share group 0 and only the first one whose
filters accept an update runs, so the handler registered first — the
dump/relay handler, whose filter accepts every private text and media
message — shadows the command, configuration and health handlers.  The
modelled inbound domain is private messages of the content kinds those
handlers filter on; command matching over media captions is not
modelled. -/

namespace FileStoreForwarder

/-- Registry state: the `users` Mongo collection, a list of documents keyed
by `_id` (first component) carrying the `dump_channel` field (second
component), at most one document per `_id`. -/
abbrev DB := List (Int × Int)

/-- Embeds `Database.get_dump_channel`: `find_one({"_id": user_id})`, returning
the `dump_channel` field of the matching document, or `None` when absent. -/
def get_dump_channel (db : DB) (user_id : Int) : Option Int :=
  match db with
  | [] => none
  | (k, v) :: rest => if k = user_id then some v else get_dump_channel rest user_id

/-- Embeds `Database.set_dump_channel`: `update_one({"_id": user_id},
{"$set": {"dump_channel": channel_id}}, upsert=True)` — update the matching
document in place, or insert a fresh one when absent. -/
def set_dump_channel (db : DB) (user_id channel_id : Int) : DB :=
  match db with
  | [] => [(user_id, channel_id)]
  | (k, v) :: rest =>
    if k = user_id then (user_id, channel_id) :: rest
    else (k, v) :: set_dump_channel rest user_id channel_id

/-- Boolean substring test on character lists: `pat` occurs contiguously. -/
def listInfix (pat : List Char) : List Char → Bool
  | [] => pat.isEmpty
  | c :: rest => List.isPrefixOf pat (c :: rest) || listInfix pat rest

/-- Boolean list-based model of Python's `pat in s` substring test. -/
def strContains (pat s : String) : Bool :=
  listInfix pat.toList s.toList

/-- Boolean list-based model of Python's `s.startswith(p)`. -/
def strStartsWith (s p : String) : Bool :=
  List.isPrefixOf p.toList s.toList

/-- Value of a list of decimal digit characters. -/
def digitsVal (l : List Char) : Nat :=
  l.foldl (fun a c => a * 10 + (c.toNat - 48)) 0

/-- Validates the tail of a Python digit group: single underscores may
stand strictly between digits and are dropped. -/
def ungroupRest : List Char → Option (List Char)
  | [] => some []
  | ['_'] => none
  | '_' :: c :: rest =>
    if c.isDigit then (ungroupRest rest).map (fun l => c :: l) else none
  | c :: rest =>
    if c.isDigit then (ungroupRest rest).map (fun l => c :: l) else none

/-- Parses a Python digit group: a leading decimal digit, then digits
possibly separated by single underscores (`1_000`), as Python's `int`
accepts; Python's acceptance of non-ASCII decimal digits is not
modelled. -/
def parseDigits (l : List Char) : Option Nat :=
  match l with
  | [] => none
  | c :: rest =>
    if c.isDigit then (ungroupRest rest).map (fun t => digitsVal (c :: t))
    else none

/-- Embeds Python's `int(str)` on already-stripped input, restricted to an
optional ASCII sign followed by decimal digits (the shapes the bot's
configuration flow is specified over); every other input raises
`ValueError`, modelled as `none`. -/
def parseInt (s : String) : Option Int :=
  match s.toList with
  | '-' :: rest => (parseDigits rest).map (fun n => -(n : Int))
  | '+' :: rest => (parseDigits rest).map (fun n => (n : Int))
  | l => (parseDigits l).map (fun n => (n : Int))

/-- Embeds Python's `s.strip()`: drop whitespace from both ends. -/
def pyStrip (s : String) : String :=
  String.mk (((s.toList.dropWhile Char.isWhitespace).reverse.dropWhile
    Char.isWhitespace).reverse)

/-- Content kinds admitted by the dump handler's filter:
`filters.text | document | video | audio | photo | animation | sticker`. -/
inductive Content where
  | text (body : String)
  | document
  | video
  | audio
  | photo
  | animation
  | sticker
deriving DecidableEq

/-- Inbound private message as seen by the dump handler. -/
structure Message where
  fromUser : Int
  content : Content
deriving DecidableEq

/-- Pyrogram `message.text`: the body for text messages, `None` for media. -/
def Message.text (m : Message) : Option String :=
  match m.content with
  | .text b => some b
  | _ => none

/-- Outcome of one `message.copy(dump_channel)` attempt: success, a
rate-limit (`errors.FloodWait`) carrying the required wait, or any other
exception. -/
inductive CopyOutcome where
  | ok
  | floodWait (wait : Nat)
  | err
deriving DecidableEq

/-- Observable effects of one run of the dump handler: replies sent to the
sender, destinations of copy attempts (in order), sleep durations, and
whether an exception escaped the handler uncaught. -/
structure DumpEffects where
  replies : List String
  copies : List Int
  sleeps : List Nat
  escaped : Bool
deriving DecidableEq

def noEffects : DumpEffects := ⟨[], [], [], false⟩

def noDumpPrompt : String :=
  "❌ You have not set a dump channel.\nUse /settings to configure it."

def dumpFailMsg : String := "❌ Failed to dump this message."

/-- Test `message.text and message.text.startswith("/")`. -/
def isCommandMsg (m : Message) : Bool :=
  match m.text with
  | some t => strStartsWith t "/"
  | none => false

/-- Branch taken when `not dump_channel`: text is silently ignored, media
prompts the user to configure a channel. -/
def noBindingReply (m : Message) : DumpEffects :=
  if (m.text).isSome then noEffects else ⟨[noDumpPrompt], [], [], false⟩

/-- Embeds the `try/except` relay of `dump_handler`: copy once; on
`FloodWait e` sleep `e.value` and copy once more — a failure of that second
copy is raised inside the `except FloodWait` clause, which the sibling
`except Exception` clause does not cover, so it escapes the handler; any
other first-attempt failure is caught and reported with one failure reply.
`env n` is the outcome of the `n`-th copy attempt. -/
def relay (env : Nat → CopyOutcome) (c : Int) : DumpEffects :=
  match env 0 with
  | .ok => ⟨[], [c], [], false⟩
  | .floodWait w =>
    match env 1 with
    | .ok => ⟨[], [c, c], [w], false⟩
    | _ => ⟨[], [c, c], [w], true⟩
  | .err => ⟨[dumpFailMsg], [c], [], false⟩

/-- Embeds `dump_handler`: skip commands, then branch on
`if not dump_channel` — Python truthiness, falsy both when the binding is
absent (`None`) and when the stored channel id is `0` — else relay. -/
def dump_handler (env : Nat → CopyOutcome) (db : DB) (m : Message) : DumpEffects :=
  if isCommandMsg m then noEffects
  else
    match get_dump_channel db m.fromUser with
    | none => noBindingReply m
    | some c => if c = 0 then noBindingReply m else relay env c

/-- Replied-to message as inspected by `save_dump_channel`; only its `text`
attribute is read, which is `None` for media messages. -/
structure ReplyTo where
  text : Option String
deriving DecidableEq

/-- Result of one run of `save_dump_channel`: registry state after the
handler, replies sent, and whether an exception escaped uncaught. -/
structure SaveResult where
  db : DB
  replies : List String
  escaped : Bool
deriving DecidableEq

/-- Prompt marker matched by `save_dump_channel` against the replied-to
message body. -/
def promptMarker : String := "Dump Channel ID"

/-- Prompt text sent by the `set_dump` callback, whose body contains the
marker. -/
def setDumpPromptText : String :=
  "**Send your Dump Channel ID**\n\nExample:\n`-1001234567890`\n\n⚠ Bot must be admin in that channel"

def invalidChannelMsg : String := "❌ Invalid channel ID. Send numbers only."

def savedMsg (channel_id : Int) : String :=
  "✅ Dump channel saved for you:\n`" ++ toString channel_id ++ "`"

/-- Embeds `save_dump_channel` (its filter guarantees a private text reply):
ignore if no replied-to message or no marker in its body; `"..." not in
None` raises `TypeError` uncaught when the replied-to message has no text;
else parse the stripped body with `int`, on success upsert the binding and
confirm, on `ValueError` report invalid input and leave the registry
untouched. -/
def save_dump_channel (db : DB) (user_id : Int) (body : String)
    (replyTo : Option ReplyTo) : SaveResult :=
  match replyTo with
  | none => ⟨db, [], false⟩
  | some r =>
    match r.text with
    | none => ⟨db, [], true⟩
    | some rt =>
      if strContains promptMarker rt = false then ⟨db, [], false⟩
      else
        match parseInt (pyStrip body) with
        | some channel_id =>
          ⟨set_dump_channel db user_id channel_id, [savedMsg channel_id], false⟩
        | none => ⟨db, [invalidChannelMsg], false⟩

def healthOkMsg : String := "✅ Bot is running!\n✅ MongoDB connection OK!"

def healthFailMsg (e : String) : String := "❌ Something is wrong!\n" ++ e

/-- Embeds the `/health` command handler: ping the store; reply with the
success marker, or with the failure marker carrying the error text. -/
def health_check (ping : Except String Unit) : List String :=
  match ping with
  | .ok _ => [healthOkMsg]
  | .error e => [healthFailMsg e]

/-- Embeds the `GET /health` endpoint `http_health`: status 200 with body
`"OK"` when the store ping succeeds, status 500 with body
`"MongoDB connection failed"` otherwise. -/
def http_health (ping : Except String Unit) : Nat × String :=
  match ping with
  | .ok _ => (200, "OK")
  | .error _ => (500, "MongoDB connection failed")

def startMsg : String :=
  "👋 **User Dump Bot**\n\nSend me any text or file and I will dump it to *your* channel.\nUse /settings to configure your dump channel."

/-- Embeds `start_cmd`: one static greeting, registry untouched. -/
def start_cmd (db : DB) : DB × List String := (db, [startMsg])

/-- Display of the binding in `/settings`: Python `dump_channel or 'Not Set'`
shows `Not Set` for a falsy value — absent or channel id `0`. -/
def settingsShown (dump_channel : Option Int) : String :=
  match dump_channel with
  | some c => if c = 0 then "Not Set" else toString c
  | none => "Not Set"

def settingsText (dump_channel : Option Int) : String :=
  "**⚙ Your Settings**\n\n📦 Dump Channel ID:\n`" ++ settingsShown dump_channel ++ "`"

/-- Embeds `settings_cmd`: read the binding, reply with the settings view
(plus the configure button), registry untouched. -/
def settings_cmd (db : DB) (user_id : Int) : DB × List String :=
  (db, [settingsText (get_dump_channel db user_id)])

/-- Removes `pat` from the head of `l`, comparing characters
case-insensitively (ASCII), and returns the remainder. -/
def stripCaseless : List Char → List Char → Option (List Char)
  | [], l => some l
  | _ :: _, [] => none
  | p :: ps, c :: cs =>
    if p.toLower = c.toLower then stripCaseless ps cs else none

/-- Remainder test of the command regex `(?:\s|$)`: whitespace or end. -/
def wsOrEnd : List Char → Bool
  | [] => true
  | c :: _ => c.isWhitespace

/-- Embeds pyrogram `filters.command(cmd)` on a text body: the body must
start with the prefix `/` itself (leading whitespace is rejected, because
the filter tests `text.startswith(prefix)`), followed by the command name
matched case-insensitively, then either whitespace/end or an optional `@`
and the bot's own username — the regex `^(?:cmd(?:@?username)?)(?:\s|$)`
with IGNORECASE, where `username` is `client.me.username`. The source
filter also consults media captions; only text bodies are modelled. -/
def matchesCommand (username cmd : String) (t : String) : Bool :=
  match t.toList with
  | '/' :: rest =>
    (match stripCaseless cmd.toList rest with
     | none => false
     | some tail =>
       wsOrEnd tail ||
         (match tail with
          | '@' :: tail2 =>
            (match stripCaseless username.toList tail2 with
             | some tail3 => wsOrEnd tail3
             | none => false)
          | _ =>
            (match stripCaseless username.toList tail with
             | some tail3 => wsOrEnd tail3
             | none => false)))
  | _ => false

/-- Discriminates the text content kind from the media kinds. -/
def Content.isTextual : Content → Bool
  | .text _ => true
  | _ => false

/-- Inbound private message as the dispatcher sees it: sender, content and
the replied-to message, if any. -/
structure Inbound where
  fromUser : Int
  content : Content
  replyTo : Option ReplyTo
deriving DecidableEq

/-- Pyrogram `message.text` of an inbound message. -/
def Inbound.body (m : Inbound) : Option String :=
  match m.content with
  | .text b => some b
  | _ => none

/-- Filter of `dump_handler` (`filters.private & (filters.text | document |
video | audio | photo | animation | sticker)`): it accepts every modelled
content kind, written out case by case to mirror the union. -/
def dump_filter : Content → Bool
  | .text _ => true
  | .document => true
  | .video => true
  | .audio => true
  | .photo => true
  | .animation => true
  | .sticker => true

/-- Filter of a command decorator (`filters.command(cmd) &
filters.private`) against an inbound message. -/
def cmdFilter (username cmd : String) (m : Inbound) : Bool :=
  match m.body with
  | some t => matchesCommand username cmd t
  | none => false

/-- Filter of `save_dump_channel` (`filters.private & filters.reply &
filters.text`). -/
def saveFilter (m : Inbound) : Bool :=
  m.content.isTextual && (m.replyTo).isSome

/-- Observable effects of dispatching one inbound message: registry state
afterwards, replies sent, copy attempts, sleeps, and whether an exception
escaped the executed handler uncaught. -/
structure Effects where
  db : DB
  replies : List String
  copies : List Int
  sleeps : List Nat
  escaped : Bool
deriving DecidableEq

/-- Lifts the dump handler's effects to dispatcher effects (the registry is
never written on that path). -/
def effectsOfDump (db : DB) (d : DumpEffects) : Effects :=
  ⟨db, d.replies, d.copies, d.sleeps, d.escaped⟩

/-- Embeds pyrogram group-0 dispatch over the `on_message` handlers of
`bot.py`: all five are registered without an explicit group, so they share
group 0, and within a group only the first handler whose filters accept
the update is executed — the rest are skipped (no handler raises
`ContinuePropagation`). The branches appear in registration order:
`dump_handler` (line 72), `start_cmd` (112), `settings_cmd` (120),
`save_dump_channel` (148), `health_check` (170). Since `dump_filter`
accepts every modelled content kind, the four later branches are dead
code, faithfully to the program. -/
def on_message (username : String) (env : Nat → CopyOutcome)
    (ping : Except String Unit) (db : DB) (m : Inbound) : Effects :=
  if dump_filter m.content then
    effectsOfDump db (dump_handler env db ⟨m.fromUser, m.content⟩)
  else if cmdFilter username "start" m then
    ⟨(start_cmd db).1, (start_cmd db).2, [], [], false⟩
  else if cmdFilter username "settings" m then
    ⟨(settings_cmd db m.fromUser).1, (settings_cmd db m.fromUser).2,
     [], [], false⟩
  else if saveFilter m then
    ⟨(save_dump_channel db m.fromUser ((m.body).getD "") m.replyTo).db,
     (save_dump_channel db m.fromUser ((m.body).getD "") m.replyTo).replies,
     [], [],
     (save_dump_channel db m.fromUser ((m.body).getD "") m.replyTo).escaped⟩
  else if cmdFilter username "health" m then
    ⟨db, health_check ping, [], [], false⟩
  else ⟨db, [], [], [], false⟩

/-- Reading back the key just upserted yields the value just written. -/
theorem get_set_same (db : DB) (u c : Int) :
    get_dump_channel (set_dump_channel db u c) u = some c := by
  induction db with
  | nil => simp [set_dump_channel, get_dump_channel]
  | cons p rest ih =>
    obtain ⟨k, v⟩ := p
    by_cases hk : k = u
    · subst hk
      simp [set_dump_channel, get_dump_channel]
    · simp [set_dump_channel, get_dump_channel, hk, ih]

/-- The no-binding branch never escapes. -/
theorem noBindingReply_escaped (m : Message) :
    (noBindingReply m).escaped = false := by
  unfold noBindingReply
  cases h : (m.text).isSome <;> simp [h, noEffects]

/-- The relay escapes only when a first-attempt rate limit is followed by a
failed retry. -/
theorem relay_escaped (env : Nat → CopyOutcome) (c : Int)
    (h : (relay env c).escaped = true) :
    ∃ w, env 0 = CopyOutcome.floodWait w ∧ env 1 ≠ CopyOutcome.ok := by
  unfold relay at h
  cases h0 : env 0 with
  | ok => rw [h0] at h; simp at h
  | err => rw [h0] at h; simp at h
  | floodWait w =>
    rw [h0] at h
    cases h1 : env 1 with
    | ok => rw [h1] at h; simp at h
    | floodWait w2 => exact ⟨w, rfl, by simp [h1]⟩
    | err => exact ⟨w, rfl, by simp [h1]⟩

/-- C4: for every user id `u` and channel ids `A`, `B`, `set(u, A)` followed
by `get(u)` returns `A`, and `set(u, A); set(u, B); get(u)` returns `B` —
last write wins, the binding is overwritten in place, not appended. -/
theorem c4_set_get_last_write_wins (db : DB) (u A B : Int) :
    get_dump_channel (set_dump_channel db u A) u = some A ∧
    get_dump_channel (set_dump_channel (set_dump_channel db u A) u B) u = some B :=
  ⟨get_set_same db u A, get_set_same (set_dump_channel db u A) u B⟩

/-- C5: for every user id that has never been stored in the registry, `get`
returns the explicit absent value `none` and does not fail. -/
theorem c5_get_never_seen_absent (db : DB) (u : Int)
    (h : ∀ c : Int, (u, c) ∉ db) :
    get_dump_channel db u = none := by
  induction db with
  | nil => rfl
  | cons p rest ih =>
    obtain ⟨k, v⟩ := p
    have hk : ¬ k = u := by
      intro he
      exact h v (by simp [he])
    simp only [get_dump_channel, if_neg hk]
    exact ih (fun c hc => h c (List.mem_cons_of_mem _ hc))

/-- Witness for C5 at the empty registry and user 7. -/
theorem c5_get_never_seen_absent_witness :
    get_dump_channel [] 7 = none :=
  c5_get_never_seen_absent [] 7 (by simp)

/-- Behaviour of the function `save_dump_channel` in isolation — a handler
the group-0 dispatcher never invokes, because `dump_handler` precedes it
and accepts every private text message: were it called on a text reply to
a marker-bearing prompt, a parseable stripped body `n` would be stored and
confirmed with one reply, and an unparseable body would leave the registry
unchanged with one error reply. -/
theorem save_dump_channel_isolated (db : DB) (u : Int) (body rt : String)
    (hm : strContains promptMarker rt = true) :
    (∀ n : Int, parseInt (pyStrip body) = some n →
      save_dump_channel db u body (some ⟨some rt⟩) =
        ⟨set_dump_channel db u n, [savedMsg n], false⟩ ∧
      get_dump_channel (set_dump_channel db u n) u = some n) ∧
    (parseInt (pyStrip body) = none →
      save_dump_channel db u body (some ⟨some rt⟩) =
        ⟨db, [invalidChannelMsg], false⟩) := by
  constructor
  · intro n hp
    exact ⟨by simp [save_dump_channel, hm, hp], get_set_same db u n⟩
  · intro hp
    simp [save_dump_channel, hm, hp]

/-- C3: for a user with no registry binding, a plain non-command text
message produces no outbound reply at all, while every non-text content
message produces exactly one reply carrying the configure-your-channel
prompt — text and non-text content are not treated identically when the
destination is unset. -/
theorem c3_unset_text_silent_media_prompts (env : Nat → CopyOutcome)
    (db : DB) (u : Int) (h : get_dump_channel db u = none) :
    (∀ t : String, strStartsWith t "/" = false →
      dump_handler env db ⟨u, .text t⟩ = noEffects) ∧
    (∀ c : Content, c.isTextual = false →
      dump_handler env db ⟨u, c⟩ = ⟨[noDumpPrompt], [], [], false⟩) := by
  constructor
  · intro t ht
    simp [dump_handler, isCommandMsg, Message.text, ht, h, noBindingReply,
      noEffects]
  · intro c hc
    cases c <;>
      simp_all [Content.isTextual, dump_handler, isCommandMsg, Message.text,
        h, noBindingReply]

/-- Witness for C3 at the empty registry: user 5 sends the text `"hello"`
(silence) and a photo (one configuration prompt). -/
theorem c3_unset_text_silent_media_prompts_witness :
    dump_handler (fun _ => CopyOutcome.ok) [] ⟨5, .text "hello"⟩ = noEffects ∧
    dump_handler (fun _ => CopyOutcome.ok) [] ⟨5, .photo⟩ =
      ⟨[noDumpPrompt], [], [], false⟩ :=
  ⟨(c3_unset_text_silent_media_prompts (fun _ => CopyOutcome.ok) [] 5
      rfl).1 "hello" (by decide),
   (c3_unset_text_silent_media_prompts (fun _ => CopyOutcome.ok) [] 5
      rfl).2 .photo (by decide)⟩

/-- C6: a message whose text begins with `"/"` never reaches the relay
path: no copy to the destination channel is attempted, regardless of the
registry state. -/
theorem c6_command_never_relayed (env : Nat → CopyOutcome) (db : DB)
    (m : Message) (t : String) (ht : m.text = some t)
    (hs : strStartsWith t "/" = true) :
    (dump_handler env db m).copies = [] := by
  simp [dump_handler, isCommandMsg, ht, hs, noEffects]

/-- Witness for C6: `/start` from a user with a configured channel is not
copied anywhere. -/
theorem c6_command_never_relayed_witness :
    (dump_handler (fun _ => CopyOutcome.ok) [(9, 4)] ⟨9, .text "/start"⟩).copies
      = [] :=
  c6_command_never_relayed (fun _ => CopyOutcome.ok) [(9, 4)]
    ⟨9, .text "/start"⟩ "/start" rfl (by decide)

/-- C2 counterexample: with a configured channel 42, first copy attempt
rate-limited with wait 5, retry failing with another error, the handler
does sleep 5 once and retries once, but it sends no failure reply at all —
the claim's "exactly one failure reply is sent" is false at this input; the
retry's exception escapes the handler uncaught. -/
theorem c2_retry_failure_counterexample :
    (dump_handler (fun n => if n = 0 then CopyOutcome.floodWait 5 else .err)
        [(1, 42)] ⟨1, .document⟩).sleeps = [5] ∧
    (dump_handler (fun n => if n = 0 then CopyOutcome.floodWait 5 else .err)
        [(1, 42)] ⟨1, .document⟩).copies.length = 2 ∧
    ¬ ((dump_handler (fun n => if n = 0 then CopyOutcome.floodWait 5 else .err)
        [(1, 42)] ⟨1, .document⟩).replies.length = 1) := by
  decide

/-- C2 amended: when the first copy attempt rate-limits with wait `W`, the
handler sleeps exactly `W` once and retries exactly once (two attempts in
total, never a third); no failure reply is ever sent on this path — if the
retry fails (rate-limit or otherwise) the exception escapes the handler
uncaught instead of being reported to the sender. -/
theorem c2_rate_limit_retry_amended (env : Nat → CopyOutcome) (db : DB)
    (m : Message) (c : Int) (W : Nat) (hcmd : isCommandMsg m = false)
    (hget : get_dump_channel db m.fromUser = some c) (hc : ¬ c = 0)
    (henv : env 0 = CopyOutcome.floodWait W) :
    (dump_handler env db m).sleeps = [W] ∧
    (dump_handler env db m).copies = [c, c] ∧
    (dump_handler env db m).replies = [] ∧
    ((dump_handler env db m).escaped = true ↔ env 1 ≠ CopyOutcome.ok) := by
  have hd : dump_handler env db m = relay env c := by
    simp [dump_handler, hcmd, hget, hc]
  rw [hd]
  unfold relay
  rw [henv]
  cases h1 : env 1 <;> simp [h1]

/-- Witness for C2 amended: rate limit with wait 7, retry succeeds — one
sleep of 7, two attempts, no reply, nothing escapes. -/
theorem c2_rate_limit_retry_amended_witness :
    (dump_handler (fun n => if n = 0 then CopyOutcome.floodWait 7 else .ok)
        [(2, 5)] ⟨2, .photo⟩).sleeps = [7] ∧
    (dump_handler (fun n => if n = 0 then CopyOutcome.floodWait 7 else .ok)
        [(2, 5)] ⟨2, .photo⟩).copies = [5, 5] ∧
    (dump_handler (fun n => if n = 0 then CopyOutcome.floodWait 7 else .ok)
        [(2, 5)] ⟨2, .photo⟩).replies = [] ∧
    ((dump_handler (fun n => if n = 0 then CopyOutcome.floodWait 7 else .ok)
        [(2, 5)] ⟨2, .photo⟩).escaped = true ↔
      (fun n => if n = 0 then CopyOutcome.floodWait 7 else .ok) 1 ≠
        CopyOutcome.ok) :=
  c2_rate_limit_retry_amended
    (fun n => if n = 0 then CopyOutcome.floodWait 7 else .ok)
    [(2, 5)] ⟨2, .photo⟩ 5 7 (by decide) (by decide) (by decide) (by decide)

/-- Behaviour of the two liveness functions in isolation: `http_health`
answers 200 `"OK"` or 500 `"MongoDB connection failed"` by the ping, and
the function `health_check` — whose handler the group-0 dispatcher never
invokes — would reply with the success marker, or the failure marker
followed by the ping's error text. -/
theorem liveness_surfaces_isolated (e : String) :
    http_health (Except.ok ()) = (200, "OK") ∧
    health_check (Except.ok ()) =
      ["✅ Bot is running!\n✅ MongoDB connection OK!"] ∧
    http_health (Except.error e) = (500, "MongoDB connection failed") ∧
    health_check (Except.error e) = ["❌ Something is wrong!\n" ++ e] :=
  ⟨rfl, rfl, rfl, rfl⟩

/-- A failure escapes `dump_handler` only when the first copy attempt
rate-limits and the retry then fails. -/
theorem dump_handler_escape (env : Nat → CopyOutcome) (db : DB)
    (m : Message) (h : (dump_handler env db m).escaped = true) :
    ∃ w, env 0 = CopyOutcome.floodWait w ∧ env 1 ≠ CopyOutcome.ok := by
  by_cases hcmd : isCommandMsg m = true
  · simp [dump_handler, hcmd, noEffects] at h
  · cases hget : get_dump_channel db m.fromUser with
    | none =>
      simp [dump_handler, hcmd, hget, noBindingReply_escaped] at h
    | some c =>
      by_cases hc : c = 0
      · simp [dump_handler, hcmd, hget, hc, noBindingReply_escaped] at h
      · have hd : dump_handler env db m = relay env c := by
          simp [dump_handler, hcmd, hget, hc]
        rw [hd] at h
        exact relay_escaped env c h

/-- The filter of the first-registered handler accepts every modelled
content kind, so under group-0 dispatch no later handler can run. -/
theorem dump_filter_true (c : Content) : dump_filter c = true := by
  cases c <;> rfl

/-- Dispatch collapses: every modelled inbound private message is consumed
by `dump_handler`; the four later-registered handlers never run. -/
theorem on_message_runs_dump (username : String) (env : Nat → CopyOutcome)
    (ping : Except String Unit) (db : DB) (m : Inbound) :
    on_message username env ping db m =
      effectsOfDump db (dump_handler env db ⟨m.fromUser, m.content⟩) := by
  simp [on_message, dump_filter_true]

/-- C1: the claimed configuration flow never happens in the program. The
private text submission `"-1001234567890"` replying to the prompt is
dispatched to `dump_handler` — the first matching group-0 handler — never
to `save_dump_channel`, although the latter's filter would accept it: with
no binding the submission is silently ignored (registry unchanged, no
confirmation and no error reply), and with a binding it is copied verbatim
to the bound channel instead of being parsed. -/
theorem c1_config_submission_swallowed :
    on_message "ExampleBot" (fun _ => CopyOutcome.ok) (Except.ok ()) []
      ⟨7, .text "-1001234567890", some ⟨some setDumpPromptText⟩⟩ =
      ⟨[], [], [], [], false⟩ ∧
    on_message "ExampleBot" (fun _ => CopyOutcome.ok) (Except.ok ()) [(7, 42)]
      ⟨7, .text "-1001234567890", some ⟨some setDumpPromptText⟩⟩ =
      ⟨[(7, 42)], [], [42], [], false⟩ ∧
    saveFilter ⟨7, .text "-1001234567890", some ⟨some setDumpPromptText⟩⟩ =
      true := by
  decide

/-- C7: only the HTTP half of the claim holds of the program. `GET /health`
answers 200 `"OK"` or 500 `"MongoDB connection failed"` by the ping, but
the `/health` command surface never replies: the message is dispatched to
`dump_handler`, whose command guard returns silently, although the health
command filter would accept it. -/
theorem c7_health_command_shadowed :
    on_message "ExampleBot" (fun _ => CopyOutcome.ok) (Except.ok ()) []
      ⟨6, .text "/health", none⟩ = ⟨[], [], [], [], false⟩ ∧
    on_message "ExampleBot" (fun _ => CopyOutcome.ok)
      (Except.error "MongoDB down") []
      ⟨6, .text "/health", none⟩ = ⟨[], [], [], [], false⟩ ∧
    cmdFilter "ExampleBot" "health" ⟨6, .text "/health", none⟩ = true ∧
    http_health (Except.ok ()) = (200, "OK") ∧
    http_health (Except.error "MongoDB down") =
      (500, "MongoDB connection failed") := by
  decide

/-- C8 counterexample: with user 8 bound to channel 77, a sticker whose
first copy attempt rate-limits (wait 3) and whose retry then fails is
dispatched to `dump_handler`, and the retry's exception escapes the
handler uncaught with no user-facing reply — the claim that every handler
catches all failures in its unit of work is false at this input. -/
theorem c8_unhandled_escape_counterexample :
    (on_message "ExampleBot"
        (fun n => if n = 0 then CopyOutcome.floodWait 3 else .err)
        (Except.ok ()) [(8, 77)] ⟨8, .sticker, none⟩).escaped = true ∧
    (on_message "ExampleBot"
        (fun n => if n = 0 then CopyOutcome.floodWait 3 else .err)
        (Except.ok ()) [(8, 77)] ⟨8, .sticker, none⟩).replies = [] := by
  decide

/-- C8 amended: among the modelled failure sources (copy attempts, integer
parsing, the marker test against a missing text), the only failure that
escapes a dispatched handler is a rate-limited first relay attempt whose
retry then fails; every other failure is caught and converted into a
user-facing reply — the potential `TypeError` escape in
`save_dump_channel` sits in code the dispatcher never reaches. -/
theorem c8_escape_only_retry (username : String) (env : Nat → CopyOutcome)
    (ping : Except String Unit) (db : DB) (m : Inbound)
    (h : (on_message username env ping db m).escaped = true) :
    ∃ w, env 0 = CopyOutcome.floodWait w ∧ env 1 ≠ CopyOutcome.ok := by
  rw [on_message_runs_dump] at h
  exact dump_handler_escape env db ⟨m.fromUser, m.content⟩ h

/-- Witness for C8 amended: a concrete dispatched escape — rate limit with
wait 2, then a failing retry. -/
theorem c8_escape_only_retry_witness :
    ∃ w, (fun n => if n = 0 then CopyOutcome.floodWait 2 else CopyOutcome.err)
        0 = CopyOutcome.floodWait w ∧
      (fun n => if n = 0 then CopyOutcome.floodWait 2 else CopyOutcome.err)
        1 ≠ CopyOutcome.ok :=
  c8_escape_only_retry "ExampleBot"
    (fun n => if n = 0 then CopyOutcome.floodWait 2 else CopyOutcome.err)
    (Except.ok ()) [(4, 9)] ⟨4, .video, none⟩ (by decide)

/-- C9: no command handler ever runs. Each of `/start`, `/settings` and
`/health`, sent as a private text message, is accepted by its command
filter, yet dispatch hands it to `dump_handler` — first in group 0, its
filter matching all private text — whose `"/"` guard returns with no
reply; the claimed informational replies never happen. -/
theorem c9_commands_swallowed :
    on_message "ExampleBot" (fun _ => CopyOutcome.ok) (Except.ok ()) []
      ⟨4, .text "/start", none⟩ = ⟨[], [], [], [], false⟩ ∧
    on_message "ExampleBot" (fun _ => CopyOutcome.ok) (Except.ok ()) []
      ⟨4, .text "/settings", none⟩ = ⟨[], [], [], [], false⟩ ∧
    on_message "ExampleBot" (fun _ => CopyOutcome.ok) (Except.ok ()) []
      ⟨4, .text "/health", none⟩ = ⟨[], [], [], [], false⟩ ∧
    cmdFilter "ExampleBot" "start" ⟨4, .text "/start", none⟩ = true ∧
    cmdFilter "ExampleBot" "settings" ⟨4, .text "/settings", none⟩ = true ∧
    cmdFilter "ExampleBot" "health" ⟨4, .text "/health", none⟩ = true := by
  decide

/-- C10 counterexample: the configuration submission with body `"0"` is
never accepted or stored — it is dispatched to `dump_handler` and silently
ignored, leaving the registry unchanged with no confirmation reply —
refuting the claim's "accepted and stored" at a concrete input. -/
theorem c10_zero_never_stored_counterexample :
    on_message "ExampleBot" (fun _ => CopyOutcome.ok) (Except.ok ()) []
      ⟨5, .text "0", some ⟨some setDumpPromptText⟩⟩ =
      ⟨[], [], [], [], false⟩ := by
  decide

/-- C10 amended: a registry binding with channel id 0, where present, is
treated by the dispatched relay path as if no binding exists (silent for
non-command text, configuration prompt for media), because presence is
tested by Python truthiness; the acceptance of body `"0"` and the
`Not Set` settings view hold only of `save_dump_channel` and
`settings_cmd` in isolation — handlers the dispatcher never reaches. -/
theorem c10_zero_truthiness_amended (username : String)
    (env : Nat → CopyOutcome) (ping : Except String Unit) (db : DB)
    (u : Int) (t : String) (ht : strStartsWith t "/" = false)
    (h0 : get_dump_channel db u = some 0) :
    on_message username env ping db ⟨u, .text t, none⟩ =
      ⟨db, [], [], [], false⟩ ∧
    on_message username env ping db ⟨u, .photo, none⟩ =
      ⟨db, [noDumpPrompt], [], [], false⟩ ∧
    save_dump_channel db u "0" (some ⟨some setDumpPromptText⟩) =
      ⟨set_dump_channel db u 0, [savedMsg 0], false⟩ ∧
    settings_cmd db u = (db, [settingsText (some 0)]) ∧
    settingsShown (some 0) = "Not Set" := by
  have h1 : strContains promptMarker setDumpPromptText = true := by decide
  have h2 : parseInt (pyStrip "0") = some 0 := by decide
  refine ⟨?_, ?_, by simp [save_dump_channel, h1, h2],
    by simp [settings_cmd, h0], rfl⟩
  · rw [on_message_runs_dump]
    simp [effectsOfDump, dump_handler, isCommandMsg, Message.text, ht, h0,
      noBindingReply, noEffects]
  · rw [on_message_runs_dump]
    simp [effectsOfDump, dump_handler, isCommandMsg, Message.text, h0,
      noBindingReply]

/-- Witness for C10 amended at the registry holding the binding 5 ↦ 0. -/
theorem c10_zero_truthiness_amended_witness :
    on_message "ExampleBot" (fun _ => CopyOutcome.ok) (Except.ok ()) [(5, 0)]
      ⟨5, .text "hi", none⟩ = ⟨[(5, 0)], [], [], [], false⟩ ∧
    on_message "ExampleBot" (fun _ => CopyOutcome.ok) (Except.ok ()) [(5, 0)]
      ⟨5, .photo, none⟩ = ⟨[(5, 0)], [noDumpPrompt], [], [], false⟩ ∧
    save_dump_channel [(5, 0)] 5 "0" (some ⟨some setDumpPromptText⟩) =
      ⟨[(5, 0)], [savedMsg 0], false⟩ ∧
    settings_cmd [(5, 0)] 5 = ([(5, 0)], [settingsText (some 0)]) ∧
    settingsShown (some 0) = "Not Set" :=
  c10_zero_truthiness_amended "ExampleBot" (fun _ => CopyOutcome.ok)
    (Except.ok ()) [(5, 0)] 5 "hi" (by decide) (by decide)

end FileStoreForwarder
